import Mathlib

/-!
Verification of the "human-like" memory engine of this repository
(`modules/memory/`): tiered storage, conflict detection/resolution,
retrieval scoring, and maintenance, shallowly embedded in Lean 4.

Conventions of the embedding:
* Python `str` values are embedded as `List Char` (`Text`); Python's
  substring test `p in s` is `containsTok s p`.
* Python `float` values (distances, importances, timestamps) are embedded
  as `ℚ`; all thresholds in the source are decimal literals, represented
  exactly.
* The word lexicons imported from `modules/memory/config.py` (a file whose
  contents are not part of the repository snapshot; only its importers are)
  and the jieba-based tokenizer functions (an external POS service per the
  spec) are parameters of the embedding, bundled in `Env`.
* The ChromaDB similarity index is external; its `query` operation is a
  function parameter wherever an operation consults it.
-/

/-- Texts are lists of characters; Python `len`, `in`, slicing and
`split` translate to list operations. -/
abbrev Text := List Char

/-- Coerce a string literal to a `Text`. -/
def tx (s : String) : Text := s.data

/-- Python's substring test `pat in s` (for the nonempty literal patterns
used throughout the source). -/
def containsTok (s pat : Text) : Bool :=
  match s with
  | [] => pat.isEmpty
  | _ :: rest => pat.isPrefixOf s || containsTok rest pat

/-- Split a text at the first occurrence of `pat`: returns
`some (before, after)` when `pat` occurs, `none` otherwise. -/
def findSplit (pat : Text) : Text → Option (Text × Text)
  | [] => if pat.isEmpty then some ([], []) else none
  | c :: rest =>
    if pat.isPrefixOf (c :: rest) then some ([], (c :: rest).drop pat.length)
    else (findSplit pat rest).map (fun p => (c :: p.1, p.2))

/-- The part of `s` before the first occurrence of `pat` (all of `s` when
`pat` does not occur): Python `s.split(pat)[0]`. -/
def takeBefore (pat s : Text) : Text :=
  match findSplit pat s with
  | some p => p.1
  | none => s

/-- ASCII whitespace, the characters Python's `str.strip` removes from the
conversation texts handled here. -/
def isSpaceChar (c : Char) : Bool :=
  c = ' ' || c = '\t' || c = '\n' || c = '\r'

/-- Python `str.strip()`. -/
def stripText (s : Text) : Text :=
  ((s.dropWhile isSpaceChar).reverse.dropWhile isSpaceChar).reverse

/-! ## Constants of `modules/memory/conflict/constants.py` -/

/-- `QUESTION_INDICATORS` (conflict/constants.py line 6). -/
def QUESTION_INDICATORS : List Text :=
  [tx "吗", tx "呢", tx "吧", tx "?", tx "？", tx "什么", tx "哪",
   tx "怎么", tx "为什么", tx "还记得"]

/-- `EXACT_DUPLICATE_THRESHOLD = 0.15` (conflict/constants.py line 9). -/
def EXACT_DUPLICATE_THRESHOLD : ℚ := mkRat 15 100

/-- `ENTITY_CONFLICT_THRESHOLD = 0.4` (conflict/constants.py line 10). -/
def ENTITY_CONFLICT_THRESHOLD : ℚ := mkRat 40 100

/-- `PREFERENCE_CONFLICT_THRESHOLD = 0.5` (conflict/constants.py line 11). -/
def PREFERENCE_CONFLICT_THRESHOLD : ℚ := mkRat 50 100

/-- `SAME_CATEGORY_THRESHOLD = 1.0` (conflict/constants.py line 12);
unused by `judge_conflict`. -/
def SAME_CATEGORY_THRESHOLD : ℚ := 1

/-! ## Environment: lexicons of the absent `modules/memory/config.py`
and the external jieba tokenizer -/

/-- The lexicons that `modules/memory/config.py` provides
(`UPDATE_INDICATORS`, `PREFERENCE_PATTERNS`, `PREFERENCE_PAIRS`,
`PREFERENCE_CATEGORIES`) — that file is not in the repository snapshot,
only its importers are — together with the two jieba-based extraction
functions of `TextAnalyzer`, which call the external POS-tagging service
(spec §6).  Every operation of the embedding is parametric in this
environment, so the theorems hold for every lexicon content and every
tokenizer behaviour. -/
structure Env where
  /-- `UPDATE_INDICATORS`: update/correction lexical markers. -/
  updateIndicators : List Text
  /-- `PREFERENCE_PATTERNS['positive']`. -/
  prefPositive : List Text
  /-- `PREFERENCE_PATTERNS['negative']`. -/
  prefNegative : List Text
  /-- `PREFERENCE_PAIRS`: `(positive, negative)` expression pairs. -/
  prefPairs : List (Text × Text)
  /-- `PREFERENCE_CATEGORIES`: category name to keyword list. -/
  prefCategories : List (Text × List Text)
  /-- `TextAnalyzer.extract_noun_entities` (analyzers.py line 84):
  jieba POS-filtered noun tokens, an external tokenizer call. -/
  nounEntities : Text → List Text
  /-- `TextAnalyzer.extract_entities` (analyzers.py line 23): jieba
  POS-filtered weighted entities, an external tokenizer call. -/
  extractEntities : Text → List (Text × ℚ)

/-- `PREFERENCE_PATTERNS.values()` flattened, the iteration order of
`detect_preference_conflict` (positive bucket then negative bucket). -/
def Env.allPrefPatterns (E : Env) : List Text :=
  E.prefPositive ++ E.prefNegative

/-! ## `modules/memory/conflict/utils.py` -/

/-- `extract_user_input` (conflict/utils.py lines 7-11): the text after the
first `用户:` marker, up to the next `用户:` marker and the first `AI:`
marker inside it, stripped; the whole text when no marker occurs. -/
def extractUserInput (t : Text) : Text :=
  match findSplit (tx "用户:") t with
  | none => t
  | some p => stripText (takeBefore (tx "AI:") (takeBefore (tx "用户:") p.2))

/-- `is_question` (conflict/utils.py lines 14-16). -/
def isQuestion (t : Text) : Bool :=
  QUESTION_INDICATORS.any (fun ind => containsTok t ind)

/-! ## `ConflictDetector` (modules/memory/conflict/detector.py) -/

/-- `ConflictDetector.has_update_intent` (detector.py lines 38-41). -/
def hasUpdateIntent (E : Env) (t : Text) : Bool :=
  E.updateIndicators.any (fun ind => containsTok t ind)

/-- `ConflictDetector.detect_preference_conflict` (detector.py lines
43-62): a preference expression must not be a question, must contain the
subject `我`, and must contain a preference pattern. -/
def detectPreferenceConflict (E : Env) (t : Text) : Bool :=
  if isQuestion t then false
  else if !containsTok t (tx "我") then false
  else E.allPrefPatterns.any (fun p => containsTok t p)

/-- `ConflictDetector.get_preference_category` (detector.py lines 64-70). -/
def getPreferenceCategory (E : Env) (t : Text) : Option Text :=
  (E.prefCategories.find? (fun ck => ck.2.any (fun kw => containsTok t kw))).map (·.1)

/-- `ConflictDetector.is_same_category_preference` (detector.py lines
72-99): both user-authored portions are non-interrogative preference
expressions of the same preference category. -/
def isSameCategoryPreference (E : Env) (newText oldText : Text) : Bool :=
  let newUser := extractUserInput newText
  let oldUser := extractUserInput oldText
  if isQuestion newUser || isQuestion oldUser then false
  else if !detectPreferenceConflict E newUser then false
  else if !detectPreferenceConflict E oldUser then false
  else
    match getPreferenceCategory E newUser, getPreferenceCategory E oldUser with
    | some nc, some oc => nc = oc
    | _, _ => false

/-- `ConflictDetector.is_preference_contradiction` (detector.py lines
101-135): both user-authored portions non-interrogative first-person, a
shared noun object, and a `(positive, negative)` pair split across the two
texts (the side holding the positive word must not also hold the negative
one, since the positive word is a subword of the negative one). -/
def isPreferenceContradiction (E : Env) (newText oldText : Text) : Bool :=
  let newUser := extractUserInput newText
  let oldUser := extractUserInput oldText
  if isQuestion newUser || isQuestion oldUser then false
  else if !containsTok newUser (tx "我") || !containsTok oldUser (tx "我") then false
  else
    let newWords := E.nounEntities newUser
    let oldWords := E.nounEntities oldUser
    let commonObjects := newWords.filter (fun w => oldWords.contains w)
    if commonObjects.isEmpty then false
    else
      E.prefPairs.any (fun pn =>
        (containsTok newUser pn.2 && containsTok oldUser pn.1 && !containsTok oldUser pn.2) ||
        (containsTok newUser pn.1 && containsTok oldUser pn.2 && !containsTok newUser pn.2))

/-- `ConflictDetector.judge_conflict` (detector.py lines 137-182): the
four supersession rules, checked in order; `none` means no conflict.  The
returned reasons are the source's literals 重复 (duplicate), 更新
(update), 偏好矛盾 (preference contradiction), 同类偏好更新
(same-category preference update). -/
def judgeConflict (E : Env) (newContent : Text) (newEntities : List Text)
    (oldDoc : Text) (oldEntities : List Text) (distance : ℚ)
    (updIntent : Bool) (preference : Bool) : Option Text :=
  if distance < EXACT_DUPLICATE_THRESHOLD then some (tx "重复")
  else if updIntent = true ∧
      newEntities.filter (fun e => oldEntities.contains e) ≠ [] ∧
      distance < ENTITY_CONFLICT_THRESHOLD then some (tx "更新")
  else if preference = true ∧ distance < PREFERENCE_CONFLICT_THRESHOLD ∧
      isPreferenceContradiction E newContent oldDoc = true then some (tx "偏好矛盾")
  else if preference = true ∧
      isSameCategoryPreference E newContent oldDoc = true then
    some (tx "同类偏好更新")
  else none

/-! ## Data model (spec §3; metadata dict built by
`MemoryStorage._do_store_memory`, storage.py lines 203-216) -/

/-- The metadata dict attached to every stored record (storage.py lines
203-216).  `preferenceCategory` and `preferencePolarity` hold `""` where
the source stores `preference_category or ""` / `preference_polarity or ""`. -/
structure Meta where
  timestamp : ℚ
  accessCount : ℕ
  lastAccess : ℚ
  importance : ℚ
  emotionType : Text
  emotionIntensity : ℕ
  entities : List Text
  consolidated : Bool
  preference : Bool
  preferenceCategory : Text
  preferencePolarity : Text
  preferenceEntities : List Text
deriving DecidableEq

/-- A persisted memory record: id, document text and metadata. -/
structure Record where
  id : ℕ
  document : Text
  meta : Meta
deriving DecidableEq

/-- The three persistent tiers (spec §3 `tier`). -/
inductive Tier where
  | emotional
  | longTerm
  | working
deriving DecidableEq

/-- The order of `MemoryStorage._collections` (storage.py lines 65-69):
emotional, long-term, working. -/
def tiersList : List Tier := [Tier.emotional, Tier.longTerm, Tier.working]

/-- A task enqueued by `store_memory` for the background store worker
(storage.py line 187). -/
structure StoreTask where
  cleanConv : Text
  entities : List (Text × ℚ)
  emotionType : Text
  emotionIntensity : ℕ
  importance : ℚ
deriving DecidableEq

/-- The mutable state of `MemoryStorage`: the enabled flag, the three
tier collections, and the two background queues. -/
structure SysState where
  enabled : Bool
  emotional : List Record
  longTerm : List Record
  working : List Record
  storeQueue : List StoreTask
  updateQueue : List (ℕ × Tier)
deriving DecidableEq

/-- The records of one tier. -/
def tierGet (s : SysState) : Tier → List Record
  | Tier.emotional => s.emotional
  | Tier.longTerm => s.longTerm
  | Tier.working => s.working

/-- Replace the records of one tier. -/
def tierSet (s : SysState) (t : Tier) (l : List Record) : SysState :=
  match t with
  | Tier.emotional => { s with emotional := l }
  | Tier.longTerm => { s with longTerm := l }
  | Tier.working => { s with working := l }

/-! ## `TextAnalyzer` (modules/memory/analyzers.py) -/

/-- `TextAnalyzer.calculate_importance` (analyzers.py lines 51-63):
base 0.3, plus a bounded entity-weight bonus, an emotion-intensity bonus,
a flat bonus for the `important` emotion, and a length-band bonus, clamped
at 1.0. -/
def calculateImportance (text : Text) (entities : List (Text × ℚ))
    (emotionType : Text) (emotionIntensity : ℕ) : ℚ :=
  let score0 : ℚ := mkRat 3 10
  let score1 :=
    if entities.isEmpty then score0
    else score0 + min ((entities.map (·.2)).sum / entities.length * mkRat 1 10) (mkRat 2 10)
  let score2 :=
    if emotionType ≠ tx "neutral" then score1 + emotionIntensity * mkRat 8 100
    else score1
  let score3 := if emotionType = tx "important" then score2 + mkRat 2 10 else score2
  let score4 :=
    if 20 ≤ text.length ∧ text.length ≤ 100 then score3 + mkRat 1 10 else score3
  min score4 1

/-! ## `MemoryStorage` (modules/memory/storage.py) -/

/-- The review-question lexical patterns of
`MemoryStorage._is_review_question` (storage.py lines 149-157). -/
def storageReviewPatterns : List Text :=
  [tx "你还记得", tx "还记得我", tx "我之前说过", tx "我以前说过",
   tx "我刚才说", tx "我刚刚说", tx "我曾经说", tx "我刚才提到",
   tx "我刚刚提到", tx "我之前提到", tx "我以前提到", tx "你记得",
   tx "记得我", tx "你能回忆", tx "你能想起", tx "你能记得",
   tx "你能告诉我我", tx "我问过", tx "我说过", tx "我提过",
   tx "我提到过", tx "我讲过", tx "我讲到过", tx "你知道我",
   tx "你知道我喜欢", tx "你知道我讨厌", tx "你知道我最喜欢",
   tx "你知道我最讨厌", tx "你能猜", tx "你猜我", tx "你能想到",
   tx "你能想到我", tx "你能想到我喜欢", tx "你能想到我讨厌",
   tx "你能想到我最喜欢", tx "你能想到我最讨厌"]

/-- The question markers of `MemoryStorage._is_review_question`
(storage.py line 159). -/
def storageQuestionMarks : List Text := [tx "吗", tx "?", tx "？"]

/-- `MemoryStorage._is_review_question` (storage.py lines 145-165): a
review pattern together with a question mark, or a review pattern alone
(the second branch makes the question marks immaterial, as in the source). -/
def isReviewQuestionStorage (t : Text) : Bool :=
  if storageReviewPatterns.any (fun p => containsTok t p) &&
      storageQuestionMarks.any (fun q => containsTok t q) then true
  else if storageReviewPatterns.any (fun p => containsTok t p) then true
  else false

/-- `MemoryStorage.store_memory` (storage.py lines 167-188): the
synchronous ingest path.  Returns the new current emotion and the new
state.  `cleanText` stands for `TextAnalyzer.clean_text`, whose two regex
patterns live in the absent `modules/memory/config.py`; `analyzeEmotion`
stands for `TextAnalyzer.analyze_emotion`, whose keyword buckets
(`EMOTION_KEYWORDS`) live in the same absent file.  Utterances whose
cleaned text is shorter than 5 characters or is a review question are
never enqueued. -/
def storeMemory (E : Env) (cleanText : Text → Text)
    (analyzeEmotion : Text → Text × ℕ) (conversation : Text)
    (currentEmotion : Text) (s : SysState) : Text × SysState :=
  if s.enabled = false then (currentEmotion, s)
  else if (cleanText conversation).length < 5 then (currentEmotion, s)
  else if isReviewQuestionStorage (cleanText conversation) then (currentEmotion, s)
  else
    let cleanConv := cleanText conversation
    let entities := E.extractEntities cleanConv
      let emo := analyzeEmotion cleanConv
      let importance := calculateImportance cleanConv entities emo.1 emo.2
      let newEmotion := if emo.1 ≠ tx "neutral" then emo.1 else currentEmotion
      (newEmotion,
       { s with storeQueue :=
          s.storeQueue ++ [⟨cleanConv, entities, emo.1, emo.2, importance⟩] })

/-- The tier-classification rule of the commit step (spec §4.2
`classify_tier`; the branch conditions of `_do_store_memory`, storage.py
lines 224-231): `emotional` when intensity ≥ 2 or the emotion type is
`important`; else `long_term` when importance ≥ 0.35; else `working`. -/
def classifyTier (importance : ℚ) (emotionIntensity : ℕ)
    (emotionType : Text) : Tier :=
  if 2 ≤ emotionIntensity ∨ emotionType = tx "important" then Tier.emotional
  else if mkRat 35 100 ≤ importance then Tier.longTerm
  else Tier.working

/-! ## `ConflictResolver` (modules/memory/conflict/resolver.py) and
`EntityLocator` (modules/memory/conflict/locator.py)

The per-tier similarity index is external (spec §6); a query against it
is modelled as a function `query : Tier → Text → List (Record × ℚ)`
returning the hit records with their semantic distances. -/

/-- Stable descending insertion by entity weight, matching Python's
stable `sort(key=weight, reverse=True)` in `EntityLocator.locate`. -/
def insertByWeightDesc (p : Text × ℚ) : List (Text × ℚ) → List (Text × ℚ)
  | [] => [p]
  | q :: rest =>
    if p.2 < q.2 then q :: insertByWeightDesc p rest else p :: q :: rest

/-- Sort a weighted entity list by weight, descending, stably. -/
def sortByWeightDesc (l : List (Text × ℚ)) : List (Text × ℚ) :=
  l.foldr insertByWeightDesc []

/-- `EntityLocator.get_primary_entities` (locator.py lines 59-71): the
`top_n` highest-weight entities of the user-authored portion. -/
def getPrimaryEntities (E : Env) (t : Text) (topN : ℕ) : List Text :=
  ((sortByWeightDesc (E.extractEntities (extractUserInput t))).take topN).map (·.1)

/-- Merge query hits into the candidate pool keyed by record id, first
occurrence winning (`if candidate.doc_id not in all_candidates`,
resolver.py lines 143-149). -/
def addCandidates (acc : List (Record × ℚ × Tier))
    (hits : List (Record × ℚ)) (layer : Tier) : List (Record × ℚ × Tier) :=
  hits.foldl
    (fun a h =>
      if a.any (fun c => c.1.id = h.1.id) then a else a ++ [(h.1, h.2, layer)])
    acc

/-- Steps 1-3 of `ConflictResolver.smart_conflict_override` (resolver.py
lines 119-183): locate primary entities, retrieve candidates per entity
and per full content across every tier, and judge each candidate,
returning the `(record id, tier)` pairs flagged for deletion.  Exact text
matches are skipped; a candidate's stored entity list is used as its
entity set (the `json.loads` of the metadata field). -/
def smartConflictToDelete (E : Env) (query : Tier → Text → List (Record × ℚ))
    (newContent : Text) (entities : List (Text × ℚ)) : List (ℕ × Tier) :=
  let primaryEntities := getPrimaryEntities E newContent 3
  let newEntitiesSet := entities.map (·.1)
  let updIntent := hasUpdateIntent E newContent
  let preference := detectPreferenceConflict E newContent
  let fromEntities :=
    primaryEntities.foldl
      (fun acc e => tiersList.foldl (fun a t => addCandidates a (query t e) t) acc)
      []
  let allCandidates :=
    tiersList.foldl (fun a t => addCandidates a (query t newContent) t) fromEntities
  allCandidates.foldl
    (fun dels c =>
      if stripText c.1.document = stripText newContent then dels
      else
        match judgeConflict E newContent newEntitiesSet c.1.document
            c.1.meta.entities c.2.1 updIntent preference with
        | some _ => dels ++ [(c.1.id, c.2.2)]
        | none => dels)
    []

/-- Physically delete the given `(record id, tier)` pairs from the store
(`ConflictResolver._execute_delete`, resolver.py lines 101-116, and the
`collection.delete(ids=...)` calls of the sweep). -/
def applyDeletes (dels : List (ℕ × Tier)) (s : SysState) : SysState :=
  dels.foldl
    (fun st d => tierSet st d.2 ((tierGet st d.2).filter (fun r => r.id ≠ d.1)))
    s

/-- `MemoryStorage._do_store_memory` (storage.py lines 190-236): build the
metadata from the task's analysis results, run the synchronous conflict
override, then add the record to a collection chosen from the emotion
intensity/type and the importance.  NOTE the source adds the final
(`else`, low-importance) branch to `self.long_term` (line 232) while
logging it as working memory; the embedding mirrors that. -/
def doStoreMemory (E : Env) (query : Tier → Text → List (Record × ℚ))
    (now : ℚ) (memoryId : ℕ) (task : StoreTask) (s : SysState) : SysState :=
  let userInput := extractUserInput task.cleanConv
  let hasPreference := detectPreferenceConflict E userInput
  let preferenceCategory :=
    if hasPreference then (getPreferenceCategory E userInput).getD [] else []
  let preferencePolarity :=
    if hasPreference then
      if E.prefNegative.any (fun p => containsTok userInput p) then tx "negative"
      else if E.prefPositive.any (fun p => containsTok userInput p) then tx "positive"
      else []
    else []
  let metadata : Meta :=
    { timestamp := now
      accessCount := 0
      lastAccess := now
      importance := task.importance
      emotionType := task.emotionType
      emotionIntensity := task.emotionIntensity
      entities := task.entities.map (·.1)
      consolidated := false
      preference := hasPreference
      preferenceCategory := preferenceCategory
      preferencePolarity := preferencePolarity
      preferenceEntities := if hasPreference then E.nounEntities userInput else [] }
  let s1 := applyDeletes (smartConflictToDelete E query task.cleanConv task.entities) s
  if 2 ≤ task.emotionIntensity ∨ task.emotionType = tx "important" then
    { s1 with emotional := ⟨memoryId, task.cleanConv, metadata⟩ :: s1.emotional }
  else if mkRat 35 100 ≤ task.importance then
    { s1 with longTerm :=
        ⟨memoryId, task.cleanConv, { metadata with consolidated := true }⟩ :: s1.longTerm }
  else
    { s1 with longTerm := ⟨memoryId, task.cleanConv, metadata⟩ :: s1.longTerm }

/-- One entry of `_flush_updates` (storage.py lines 132-143): fetch the
record with the given id from the given collection, increment its
`access_count` and set its `last_access` to the current time, leaving all
other metadata fields as fetched. -/
def applyUpdate (now : ℚ) (s : SysState) (u : ℕ × Tier) : SysState :=
  tierSet s u.2
    ((tierGet s u.2).map (fun r =>
      if r.id = u.1 then
        { r with meta :=
            { r.meta with accessCount := r.meta.accessCount + 1, lastAccess := now } }
      else r))

/-- `MemoryStorage._flush_updates` (storage.py lines 132-143): the batched
access-bookkeeping flush over a list of pending `(id, collection)`
updates. -/
def flushUpdates (now : ℚ) (updates : List (ℕ × Tier)) (s : SysState) : SysState :=
  updates.foldl (applyUpdate now) s

/-- The decay-eviction pass of `MemoryStorage.cleanup_old_memories`
(storage.py lines 255-271): in the working and long-term tiers, delete by
id every record whose memory strength is below 0.1 AND whose importance is
below 0.5.  `strength` stands for `TextAnalyzer.calculate_memory_strength`
(analyzers.py lines 65-75), an exponential-decay formula evaluated with
`math.exp`; the pass consults it only through the comparison with 0.1, so
the embedding is parametric in it. -/
def evictPass (strength : Meta → ℚ) (l : List Record) : List Record :=
  let toDelete :=
    (l.filter (fun r =>
      strength r.meta < mkRat 1 10 ∧ r.meta.importance < mkRat 1 2)).map (·.id)
  l.filter (fun r => !toDelete.contains r.id)

/-- The per-state decay eviction: the pass applied to the working and
long-term tiers (the emotional tier is not cleaned, storage.py line 256). -/
def cleanupEvict (strength : Meta → ℚ) (s : SysState) : SysState :=
  { s with working := evictPass strength s.working,
           longTerm := evictPass strength s.longTerm }

/-! ## `ConflictResolver.resolve_all_semantic_conflicts`
(resolver.py lines 188-273): the periodic full sweep -/

/-- An entry of the sweep's `to_delete` dict: the id of the record to
delete, and the `(collection, old text, conflict reason)` value (the
source also stores the layer name, which the `Tier` carries here). -/
abbrev SweepEntry := ℕ × Tier × Text × Text

/-- Python dict assignment `to_delete[k] = v`: replace the value at an
existing key in place, append otherwise. -/
def upsertEntry (k : ℕ) (v : Tier × Text × Text) :
    List SweepEntry → List SweepEntry
  | [] => [(k, v)]
  | e :: rest => if e.1 = k then (k, v) :: rest else e :: upsertEntry k v rest

/-- Key membership in the `to_delete` dict. -/
def keysContain (l : List SweepEntry) (k : ℕ) : Bool :=
  l.any (fun e => e.1 = k)

/-- `get_entities` inside `resolve_all_semantic_conflicts` (resolver.py
lines 190-197): the stored entity list when nonempty, otherwise noun
entities re-extracted from the user-authored portion of the text. -/
def getEntitiesMeta (E : Env) (t : Text) (m : Meta) : List Text :=
  if m.entities.isEmpty then E.nounEntities (extractUserInput t) else m.entities

/-- One neighbour of one document in the sweep (resolver.py lines
224-258): skip self-hits, already-flagged ids, and hits farther than the
similarity threshold 0.7; otherwise treat the record with the later (or
tied) timestamp as new, judge the pair with `judge_conflict`, and flag the
old side on a conflict. -/
def sweepNeighborStep (E : Env) (layer otherLayer : Tier) (doc : Record)
    (acc : List SweepEntry) (p : Record × ℚ) : List SweepEntry :=
  if p.1.id = doc.id ∨ keysContain acc p.1.id then acc
  else if p.2 > mkRat 7 10 then acc
  else
    let docIsNew := p.1.meta.timestamp ≤ doc.meta.timestamp
    let newR := if docIsNew then doc else p.1
    let oldR := if docIsNew then p.1 else doc
    let oldLayer := if docIsNew then otherLayer else layer
    match judgeConflict E newR.document (getEntitiesMeta E newR.document newR.meta)
        oldR.document (getEntitiesMeta E oldR.document oldR.meta) p.2
        (hasUpdateIntent E (extractUserInput newR.document))
        (detectPreferenceConflict E (extractUserInput newR.document)) with
    | some reason => upsertEntry oldR.id (oldLayer, oldR.document, reason) acc
    | none => acc

/-- One stored document of the sweep (resolver.py lines 208-258): skip it
when already flagged, otherwise query every collection for its neighbours
and process each hit. -/
def sweepDocStep (E : Env) (colls : List (Tier × List Record))
    (query : Tier → Text → List (Record × ℚ)) (layer : Tier)
    (acc : List SweepEntry) (doc : Record) : List SweepEntry :=
  if keysContain acc doc.id then acc
  else
    colls.foldl
      (fun a oc => (query oc.1 doc.document).foldl (sweepNeighborStep E layer oc.1 doc) a)
      acc

/-- The `to_delete` dict computed by
`ConflictResolver.resolve_all_semantic_conflicts` (resolver.py lines
199-262) over the given collections, with the external index's neighbour
query (`n_results=max_neighbors`) given as `query`. -/
def sweepToDelete (E : Env) (colls : List (Tier × List Record))
    (query : Tier → Text → List (Record × ℚ)) : List SweepEntry :=
  colls.foldl (fun acc c => c.2.foldl (sweepDocStep E colls query c.1) acc) []

/-- The collections view of a state, in the order of
`MemoryStorage._collections`. -/
def stateColls (s : SysState) : List (Tier × List Record) :=
  [(Tier.emotional, s.emotional), (Tier.longTerm, s.longTerm),
   (Tier.working, s.working)]

/-- `MemoryStorage.cleanup_old_memories` (storage.py lines 250-274): a
no-op when the store is disabled; otherwise the decay-eviction pass over
the working and long-term tiers followed by the full semantic-conflict
sweep (`resolve_all_contradictions`, storage.py line 274 and lines
286-290). -/
def cleanupOldMemories (E : Env) (query : Tier → Text → List (Record × ℚ))
    (strength : Meta → ℚ) (s : SysState) : SysState :=
  if s.enabled = false then s
  else
    let s1 := cleanupEvict strength s
    applyDeletes ((sweepToDelete E (stateColls s1) query).map (fun e => (e.1, e.2.1))) s1

/-! ## `MemoryRetriever` (modules/memory/retrieval.py) -/

/-- A retrieval hit as assembled by `_query_collection` /
`_query_preference_metadata` (retrieval.py lines 192-202 and 231-240):
document text, source layer, distance, computed memory strength,
timestamp, record id, and the final score assigned by the ranking step. -/
structure Mem where
  content : Text
  layer : Tier
  distance : ℚ
  strength : ℚ
  timestamp : ℚ
  id : ℕ
  finalScore : ℚ := 0
deriving DecidableEq

/-- The review-question lexical patterns of the local
`is_review_question` inside `retrieve_memories` (retrieval.py lines
41-47); a shorter list than the storage-side one. -/
def retrievalReviewPatterns : List Text :=
  [tx "你还记得", tx "还记得我", tx "我之前说过", tx "我以前说过",
   tx "我刚才说", tx "我刚刚说", tx "我曾经说", tx "我刚才提到",
   tx "我刚刚提到", tx "我之前提到", tx "我以前提到", tx "你记得",
   tx "记得我", tx "你能回忆", tx "你能想起", tx "你能记得",
   tx "你能告诉我我", tx "我问过", tx "我说过", tx "我提过",
   tx "我提到过", tx "我讲过", tx "我讲到过", tx "你知道我",
   tx "你知道我喜欢", tx "你知道我讨厌", tx "你知道我最喜欢",
   tx "你知道我最讨厌"]

/-- The local `is_review_question` of `retrieve_memories` (retrieval.py
lines 40-48). -/
def isReviewQuestionRetrieval (t : Text) : Bool :=
  retrievalReviewPatterns.any (fun p => containsTok t p)

/-- `MemoryRetriever._is_preference_memory` (retrieval.py lines 317-320). -/
def isPreferenceMemory (E : Env) (t : Text) : Bool :=
  detectPreferenceConflict E (extractUserInput t)

/-- `MemoryRetriever._get_preference_polarity` (retrieval.py lines
308-315). -/
def getPreferencePolarity (E : Env) (t : Text) : Option Text :=
  if E.prefNegative.any (fun p => containsTok t p) then some (tx "negative")
  else if E.prefPositive.any (fun p => containsTok t p) then some (tx "positive")
  else none

/-- The character-set overlap ratio of `_deduplicate_memories`
(retrieval.py lines 271-272): distinct shared characters over the larger
distinct-character count (at least 1). -/
def charOverlap (a b : Text) : ℚ :=
  let da := a.dedup
  let db := b.dedup
  ((da.filter (fun c => db.contains c)).length : ℚ) /
    (max (max da.length db.length) 1 : ℕ)

/-- The per-seen-text duplicate test of `_deduplicate_memories`
(retrieval.py lines 264-293): identical text, character overlap above 0.9
or above 0.6, a preference contradiction, or a same-category preference
relation (called as `is_same_category_preference(seen, content)` in the
source). -/
def isDupAgainst (E : Env) (content seen : Text) : Bool :=
  content = seen ||
  charOverlap content seen > mkRat 9 10 ||
  charOverlap content seen > mkRat 6 10 ||
  isPreferenceContradiction E content seen ||
  isSameCategoryPreference E seen content

/-- Stable descending insertion by timestamp, matching Python's stable
`sort(key=-timestamp)` (retrieval.py line 255). -/
def insertByTsDesc (m : Mem) : List Mem → List Mem
  | [] => [m]
  | x :: xs => if m.timestamp < x.timestamp then x :: insertByTsDesc m xs
               else m :: x :: xs

/-- Sort hits by timestamp, newest first, stably. -/
def sortByTsDesc (l : List Mem) : List Mem := l.foldr insertByTsDesc []

/-- Stable descending insertion by final score, matching Python's stable
`sort(key=-final_score)` (retrieval.py line 152). -/
def insertByScoreDesc (m : Mem) : List Mem → List Mem
  | [] => [m]
  | x :: xs => if m.finalScore < x.finalScore then x :: insertByScoreDesc m xs
               else m :: x :: xs

/-- Sort hits by final score, highest first, stably. -/
def sortByScoreDesc (l : List Mem) : List Mem := l.foldr insertByScoreDesc []

/-- The preference-entity second dedup pass
(`_deduplicate_preference_entities`, retrieval.py lines 322-377): key
preference hits by `(category, noun object)`, keep at most one hit per
key, preferring negative polarity and then recency; hits with no noun
objects join the non-preference hits. -/
def dedupPrefEntities (E : Env) (mems : List Mem) : List Mem :=
  if mems.length ≤ 1 then mems
  else
    let prefs := mems.filter (fun m => isPreferenceMemory E m.content)
    let others0 := mems.filter (fun m => !isPreferenceMemory E m.content)
    if prefs.isEmpty then mems
    else
      let step := fun (acc : List ((Option Text × Text) × (Mem × Option Text)) × List Mem)
          (m : Mem) =>
        let userText := extractUserInput m.content
        let category := getPreferenceCategory E userText
        let entities := E.nounEntities userText
        let polarity := getPreferencePolarity E userText
        if entities.isEmpty then (acc.1, acc.2 ++ [m])
        else
          (entities.foldl
            (fun sel e =>
              let key := (category, e)
              match sel.find? (fun kv => kv.1 = key) with
              | none => sel ++ [(key, (m, polarity))]
              | some kv =>
                if polarity = some (tx "negative") ∧ kv.2.2 ≠ some (tx "negative") then
                  sel.map (fun kv2 => if kv2.1 = key then (key, (m, polarity)) else kv2)
                else if kv.2.2 = some (tx "negative") ∧ polarity ≠ some (tx "negative") then
                  sel
                else if m.timestamp > kv.2.1.timestamp then
                  sel.map (fun kv2 => if kv2.1 = key then (key, (m, polarity)) else kv2)
                else sel)
            acc.1, acc.2)
      let res := prefs.foldl step ([], others0)
      let selectedList :=
        (res.1.map (fun kv => kv.2.1)).foldl
          (fun sel m => if sel.any (fun m2 => m2.id = m.id) then sel else sel ++ [m]) []
      res.2 ++ selectedList

/-- `MemoryRetriever._deduplicate_memories` (retrieval.py lines 246-300):
sort by timestamp descending, keep each hit only when no previously kept
text flags it as a duplicate, then run the preference-entity pass. -/
def dedupMemories (E : Env) (mems : List Mem) : List Mem :=
  if mems.length ≤ 1 then mems
  else
    let walked :=
      (sortByTsDesc mems).foldl
        (fun (acc : List Mem × List Text) m =>
          if acc.2.any (fun seen => isDupAgainst E m.content seen) then acc
          else (acc.1 ++ [m], acc.2 ++ [m.content]))
        ([], [])
    dedupPrefEntities E walked.1

/-- The recency score of the ranking step (retrieval.py line 141):
`1 / (1 + seconds_since / 86400)`, i.e. `1 / (1 + hours_since / 24)`. -/
def timeScore (now ts : ℚ) : ℚ := 1 / (1 + (now - ts) / 86400)

/-- `category_latest_ts.get(category, 0)` (retrieval.py lines 131-137):
the latest timestamp among the preference hits of the given category in
the scored list, `0` when there is none. -/
def categoryLatestTs (E : Env) (mems : List Mem) (category : Text) : ℚ :=
  mems.foldl
    (fun acc m =>
      if isPreferenceMemory E m.content ∧
          getPreferenceCategory E (extractUserInput m.content) = some category then
        max acc m.timestamp
      else acc)
    0

/-- The ranking step of `retrieve_memories` (retrieval.py lines 131-150):
each surviving hit's final score is
`strength*0.45 + time_score*0.25 + (1-distance)*0.2 + preference_bonus`,
where the bonus adds 0.25 for preference hits, 0.15 whenever the query is
a review question, and 0.2 for preference hits that are the most recent
of their category. -/
def scoreMemories (E : Env) (reviewQuestion : Bool) (now : ℚ)
    (mems : List Mem) : List Mem :=
  mems.map (fun m =>
    let b0 : ℚ := if isPreferenceMemory E m.content then mkRat 25 100 else 0
    let b1 := if reviewQuestion then b0 + mkRat 15 100 else b0
    let b2 :=
      if isPreferenceMemory E m.content then
        match getPreferenceCategory E (extractUserInput m.content) with
        | some c =>
          if m.timestamp ≥ categoryLatestTs E mems c then b1 + mkRat 20 100 else b1
        | none => b1
      else b1
    { m with finalScore :=
        m.strength * mkRat 45 100 + timeScore now m.timestamp * mkRat 25 100 +
          (1 - m.distance) * mkRat 20 100 + b2 })

/-- `MemoryRetriever.retrieve_memories` (retrieval.py lines 26-175).  The
fan-out of index queries (and, for review questions, the metadata-filtered
preference probes) is external I/O with a timeout; its merged hit list is
the `allMemories` parameter.  The empty string is returned when the store
is disabled; the short-term context alone when no hit survives; otherwise
the deduplicated, review-filtered, scored, ranked top `nResults` hits are
composed after the optional recent-dialogue block. -/
def retrieveMemories (E : Env) (now : ℚ) (allMemories : List Mem)
    (query shortTermContext : Text) (nResults : ℕ) (s : SysState) : Text :=
  if s.enabled = false then []
  else
    let reviewQuestion := isReviewQuestionRetrieval query
    if allMemories.isEmpty then shortTermContext
    else
      let deduped := dedupMemories E allMemories
      let prefOnly := deduped.filter (fun m => isPreferenceMemory E m.content)
      if reviewQuestion ∧ prefOnly.isEmpty then shortTermContext
      else
        let kept := if reviewQuestion then prefOnly else deduped
        let scored := scoreMemories E reviewQuestion now kept
        let top := (sortByScoreDesc scored).take nResults
        let parts :=
          (if shortTermContext.isEmpty then []
           else [tx "【最近对话】\n" ++ shortTermContext]) ++
          (if top.isEmpty then []
           else [tx "【相关记忆】\n" ++
             (List.intercalate (tx "\n") (top.map (·.content)))])
        List.intercalate (tx "\n\n") parts

/-! ## Claim-side predicates and concrete instances for witnesses -/

/-- Following the claim's words for the retrieval ranking: a preference
record is "the most-recent record in its preference category" when its
category is defined and no scored record of that category has a later
timestamp. -/
def mostRecentOfCategory (E : Env) (mems : List Mem) (m : Mem) : Bool :=
  match getPreferenceCategory E (extractUserInput m.content) with
  | some c => categoryLatestTs E mems c ≤ m.timestamp
  | none => false

/-- Following the claim's words for the retrieval ranking:
`preference_bonus` is "a fixed amount (`a`) for preference-classified
records plus an additional fixed amount (`b`) only when the query was
classified as a review question and the record is the most-recent record
in its preference category". -/
def claimBonus (E : Env) (mems : List Mem) (reviewQuestion : Bool)
    (a b : ℚ) (m : Mem) : ℚ :=
  (if isPreferenceMemory E m.content then a else 0) +
  (if reviewQuestion && mostRecentOfCategory E mems m then b else 0)

/-- The code's preference bonus in the ranking step (retrieval.py lines
142-149): 0.25 for preference hits, plus 0.15 whenever the query is a
review question, plus 0.2 for preference hits that are the most recent of
their category — the last two terms independent of each other. -/
def preferenceBonus (E : Env) (mems : List Mem) (reviewQuestion : Bool)
    (m : Mem) : ℚ :=
  (if isPreferenceMemory E m.content then mkRat 25 100 else 0) +
  (if reviewQuestion then mkRat 15 100 else 0) +
  (if isPreferenceMemory E m.content then
    match getPreferenceCategory E (extractUserInput m.content) with
    | some c => if m.timestamp ≥ categoryLatestTs E mems c then mkRat 20 100 else 0
    | none => 0
   else 0)

/-- The fields of a record that spec §3 declares immutable after
creation: everything except `access_count` and `last_access`. -/
def sameExceptAccess (r r2 : Record) : Prop :=
  r2.id = r.id ∧ r2.document = r.document ∧
  r2.meta.timestamp = r.meta.timestamp ∧
  r2.meta.importance = r.meta.importance ∧
  r2.meta.emotionType = r.meta.emotionType ∧
  r2.meta.emotionIntensity = r.meta.emotionIntensity ∧
  r2.meta.entities = r.meta.entities ∧
  r2.meta.consolidated = r.meta.consolidated ∧
  r2.meta.preference = r.meta.preference ∧
  r2.meta.preferenceCategory = r.meta.preferenceCategory ∧
  r2.meta.preferencePolarity = r.meta.preferencePolarity ∧
  r2.meta.preferenceEntities = r.meta.preferenceEntities

/-- What the full sweep promises about every entry of its `to_delete`
dict: the entry arises from a stored document and one of its index
neighbours within the 0.7 similarity threshold; the pair was judged by
`judgeConflict` with the record of the later (or tied) timestamp playing
the "new" side; and the flagged record is the "old" side, whose timestamp
does not exceed the kept record's. -/
def SweepEntryOK (E : Env) (colls : List (Tier × List Record))
    (query : Tier → Text → List (Record × ℚ)) (e : SweepEntry) : Prop :=
  ∃ c ∈ colls, ∃ doc ∈ c.2, ∃ oc ∈ colls, ∃ p ∈ query oc.1 doc.document,
    p.2 ≤ mkRat 7 10 ∧
    (let docIsNew := p.1.meta.timestamp ≤ doc.meta.timestamp
     let newR := if docIsNew then doc else p.1
     let oldR := if docIsNew then p.1 else doc
     oldR.meta.timestamp ≤ newR.meta.timestamp ∧
     e.1 = oldR.id ∧ e.2.2.1 = oldR.document ∧
     judgeConflict E newR.document (getEntitiesMeta E newR.document newR.meta)
       oldR.document (getEntitiesMeta E oldR.document oldR.meta) p.2
       (hasUpdateIntent E (extractUserInput newR.document))
       (detectPreferenceConflict E (extractUserInput newR.document)) = some e.2.2.2)

/-- Modelled from the spec: the contents of the word lexicons of the
absent `modules/memory/config.py` (`UPDATE_INDICATORS`,
`PREFERENCE_PATTERNS`, `PREFERENCE_PAIRS`, `PREFERENCE_CATEGORIES`),
restricted to the expressions the spec's examples use (喜欢/不喜欢/讨厌,
the food category "我喜欢吃苹果"/"我不喜欢吃苹果"/"我现在喜欢吃香蕉"),
together with a concrete noun extractor standing in for the external
jieba tokenizer on those examples.  Used only to instantiate witnesses
and counterexamples; the theorems themselves quantify over every `Env`. -/
def specEnv : Env where
  updateIndicators := [tx "其实", tx "更正"]
  prefPositive := [tx "喜欢", tx "爱"]
  prefNegative := [tx "不喜欢", tx "讨厌"]
  prefPairs := [(tx "喜欢", tx "不喜欢"), (tx "爱", tx "不爱")]
  prefCategories := [(tx "食物", [tx "吃", tx "苹果", tx "香蕉"])]
  nounEntities := fun t =>
    (if containsTok t (tx "苹果") then [tx "苹果"] else []) ++
    (if containsTok t (tx "香蕉") then [tx "香蕉"] else [])
  extractEntities := fun t =>
    (if containsTok t (tx "苹果") then [(tx "苹果", 1)] else []) ++
    (if containsTok t (tx "香蕉") then [(tx "香蕉", 1)] else [])

/-- Modelled from the spec: `TextAnalyzer.clean_text` strips markup and
collapses whitespace through the `CLEAN_PATTERN`/`SPACE_PATTERN` regexes
of the absent `modules/memory/config.py`; on the plain Chinese utterances
of the witnesses (no markup, no redundant whitespace) cleaning is the
identity. -/
def specCleanText : Text → Text := id

/-- An empty enabled store. -/
def emptyStore : SysState :=
  { enabled := true, emotional := [], longTerm := [], working := [],
    storeQueue := [], updateQueue := [] }

/-- A concrete stored record for witnesses: an old, never-accessed,
high-importance long-term memory. -/
def demoRecord : Record :=
  { id := 11, document := tx "用户: 我的生日是三月一日",
    meta := { timestamp := 100, accessCount := 0, lastAccess := 100,
              importance := mkRat 9 10, emotionType := tx "neutral",
              emotionIntensity := 0, entities := [], consolidated := true,
              preference := false, preferenceCategory := [],
              preferencePolarity := [], preferenceEntities := [] } }

/-- A concrete low-importance working-tier record for witnesses. -/
def demoWeakRecord : Record :=
  { id := 12, document := tx "用户: 嗯嗯好的",
    meta := { timestamp := 100, accessCount := 0, lastAccess := 100,
              importance := mkRat 3 10, emotionType := tx "neutral",
              emotionIntensity := 0, entities := [], consolidated := false,
              preference := false, preferenceCategory := [],
              preferencePolarity := [], preferenceEntities := [] } }

/-- `demoRecord` after one access-bookkeeping update at time 200: only
`access_count` and `last_access` differ. -/
def demoRecordBumped : Record :=
  { id := 11, document := tx "用户: 我的生日是三月一日",
    meta := { timestamp := 100, accessCount := 1, lastAccess := 200,
              importance := mkRat 9 10, emotionType := tx "neutral",
              emotionIntensity := 0, entities := [], consolidated := true,
              preference := false, preferenceCategory := [],
              preferencePolarity := [], preferenceEntities := [] } }

/-- A concrete enabled store holding `demoRecord` and `demoWeakRecord`. -/
def demoState : SysState :=
  { enabled := true, emotional := [], longTerm := [demoRecord],
    working := [demoWeakRecord], storeQueue := [], updateQueue := [] }

/-- A concrete retrieval hit: the newer of two same-category preference
memories. -/
def demoPrefNew : Mem :=
  { content := tx "用户: 我喜欢吃苹果", layer := Tier.longTerm,
    distance := 1, strength := 0, timestamp := 1000, id := 1 }

/-- A concrete retrieval hit: the older of two same-category preference
memories. -/
def demoPrefOld : Mem :=
  { content := tx "用户: 我喜欢吃香蕉", layer := Tier.longTerm,
    distance := 1, strength := 0, timestamp := 0, id := 2 }

/-- `demoPrefNew` as the ranking step scores it on a non-review query at
time 1000: bonus 0.25 + 0.2 (most recent of its category), recency 1. -/
def demoScoredNew : Mem :=
  { content := tx "用户: 我喜欢吃苹果", layer := Tier.longTerm,
    distance := 1, strength := 0, timestamp := 1000, id := 1,
    finalScore := mkRat 7 10 }

/-- `demoPrefOld` as the ranking step scores it on a non-review query at
time 1000: bonus 0.25 only, recency 432/437. -/
def demoScoredOld : Mem :=
  { content := tx "用户: 我喜欢吃香蕉", layer := Tier.longTerm,
    distance := 1, strength := 0, timestamp := 0, id := 2,
    finalScore := mkRat 869 1748 }

/-- A concrete stored preference record (the older side of a
contradiction) for the sweep witness. -/
def demoSweepOld : Record :=
  { id := 21, document := tx "用户: 我喜欢吃苹果",
    meta := { timestamp := 1, accessCount := 0, lastAccess := 1,
              importance := mkRat 1 2, emotionType := tx "neutral",
              emotionIntensity := 0, entities := [tx "苹果"],
              consolidated := true, preference := true,
              preferenceCategory := tx "食物",
              preferencePolarity := tx "positive",
              preferenceEntities := [tx "苹果"] } }

/-- A concrete stored preference record (the newer, contradicting side)
for the sweep witness. -/
def demoSweepNew : Record :=
  { id := 22, document := tx "用户: 我不喜欢吃苹果",
    meta := { timestamp := 2, accessCount := 0, lastAccess := 2,
              importance := mkRat 1 2, emotionType := tx "neutral",
              emotionIntensity := 0, entities := [tx "苹果"],
              consolidated := true, preference := true,
              preferenceCategory := tx "食物",
              preferencePolarity := tx "negative",
              preferenceEntities := [tx "苹果"] } }

/-- The collections of the sweep witness: one long-term tier holding the
two contradicting preference records. -/
def demoSweepColls : List (Tier × List Record) :=
  [(Tier.longTerm, [demoSweepOld, demoSweepNew])]

/-- The index behaviour of the sweep witness: every query over the
long-term tier returns both records at distance 0.3. -/
def demoSweepQuery : Tier → Text → List (Record × ℚ) :=
  fun t _ =>
    match t with
    | Tier.longTerm => [(demoSweepOld, mkRat 3 10), (demoSweepNew, mkRat 3 10)]
    | _ => []



/-! # Theorems -/

/-- C1: tier classification at commit.  The classification rule
(`classifyTier`) is a pure function mapping `(importance = 0.2,
intensity = 0, type = neutral)` to the working tier, and the spec says the
record is added to the collection of exactly that tier; the code of
`_do_store_memory` instead adds the working-classified record to the
long-term collection (storage.py line 232) while logging it as working
memory — the working collection is never written.  This theorem evaluates
the embedded code at the failing input: the new record (id 7) lands in
`long_term`, and `working` stays empty. -/
theorem C1_working_tier_commit_bug :
    classifyTier (mkRat 1 5) 0 (tx "neutral") = Tier.working ∧
    (doStoreMemory specEnv (fun _ _ => []) 100 7
      ⟨tx "今天天气一般", [], tx "neutral", 0, mkRat 1 5⟩ emptyStore).working = [] ∧
    ((doStoreMemory specEnv (fun _ _ => []) 100 7
      ⟨tx "今天天气一般", [], tx "neutral", 0, mkRat 1 5⟩ emptyStore).longTerm).map Record.id
        = [7] ∧
    (doStoreMemory specEnv (fun _ _ => []) 100 7
      ⟨tx "今天天气一般", [], tx "neutral", 0, mkRat 1 5⟩ emptyStore).emotional = [] := by
  decide

/-- C6: `store_memory` never persists an utterance whose cleaned text is
shorter than the minimum length (5) or is classified as a review
question: the returned emotion is the caller's current emotion and the
state — every tier and both queues — is unchanged, so nothing is enqueued
or added anywhere. -/
theorem C6_filtered_utterance_not_stored :
    ∀ (E : Env) (cleanText : Text → Text) (analyzeEmotion : Text → Text × ℕ)
      (conversation currentEmotion : Text) (s : SysState),
      ((cleanText conversation).length < 5 ∨
        isReviewQuestionStorage (cleanText conversation) = true) →
      storeMemory E cleanText analyzeEmotion conversation currentEmotion s
        = (currentEmotion, s) := by
  intro E ct ae conv emo s h
  unfold storeMemory
  split_ifs with h1 h2 h3
  · rfl
  · rfl
  · rfl
  · rcases h with h | h
    · exact absurd h h2
    · exact absurd h h3

/-- C6 witness: the review question 你还记得我喜欢吃什么吗 passed to
`store_memory` over a nonempty enabled store leaves the state untouched. -/
theorem C6_witness :
    isReviewQuestionStorage (specCleanText (tx "你还记得我喜欢吃什么吗")) = true ∧
    storeMemory specEnv specCleanText (fun _ => (tx "neutral", 0))
      (tx "你还记得我喜欢吃什么吗") (tx "neutral") demoState
        = (tx "neutral", demoState) :=
  ⟨by decide,
   C6_filtered_utterance_not_stored specEnv specCleanText (fun _ => (tx "neutral", 0))
     (tx "你还记得我喜欢吃什么吗") (tx "neutral") demoState (Or.inr (by decide))⟩

/-- C7: an interrogative utterance is never treated as a preference
statement on either side of a comparison: `detect_preference_conflict` is
false on any text containing a question indicator, and both
`is_preference_contradiction` and `is_same_category_preference` are false
whenever either side's user-authored portion is interrogative — for every
lexicon environment. -/
theorem C7_interrogative_never_preference :
    ∀ (E : Env) (t newText oldText : Text),
      (isQuestion t = true → detectPreferenceConflict E t = false) ∧
      (isQuestion (extractUserInput newText) = true ∨
          isQuestion (extractUserInput oldText) = true →
        isPreferenceContradiction E newText oldText = false ∧
        isSameCategoryPreference E newText oldText = false) := by
  intro E t nt ot
  constructor
  · intro h
    unfold detectPreferenceConflict
    simp [h]
  · intro h
    constructor
    · unfold isPreferenceContradiction
      rcases h with h | h <;> simp [h]
    · unfold isSameCategoryPreference
      rcases h with h | h <;> simp [h]

/-- C7 witness: 你喜欢什么 (contains 什么) is not a preference
expression, and 用户: 我喜欢吃苹果吗 (user portion contains 吗) is
neither a contradiction source nor a same-category partner against a
plain preference statement. -/
theorem C7_witness :
    (isQuestion (tx "你喜欢什么") = true ∧
      detectPreferenceConflict specEnv (tx "你喜欢什么") = false) ∧
    (isQuestion (extractUserInput (tx "用户: 我喜欢吃苹果吗")) = true ∧
      isPreferenceContradiction specEnv (tx "用户: 我喜欢吃苹果吗")
        (tx "用户: 我喜欢吃香蕉") = false ∧
      isSameCategoryPreference specEnv (tx "用户: 我喜欢吃苹果吗")
        (tx "用户: 我喜欢吃香蕉") = false) :=
  ⟨⟨by decide,
    (C7_interrogative_never_preference specEnv (tx "你喜欢什么") [] []).1 (by decide)⟩,
   ⟨by decide,
    (C7_interrogative_never_preference specEnv []
      (tx "用户: 我喜欢吃苹果吗") (tx "用户: 我喜欢吃香蕉")).2 (Or.inl (by decide))⟩⟩

/-- C9: when the store is disabled at startup, every core operation is a
no-op with an empty or neutral result: retrieval returns the empty
string for every query, `store_memory` stores nothing and returns the
caller's current emotion, and cleanup deletes nothing. -/
theorem C9_disabled_store_noops :
    ∀ (E : Env) (now : ℚ) (allMemories : List Mem)
      (query shortTermContext : Text) (nResults : ℕ)
      (cleanText : Text → Text) (analyzeEmotion : Text → Text × ℕ)
      (conversation currentEmotion : Text)
      (qf : Tier → Text → List (Record × ℚ)) (strength : Meta → ℚ)
      (s : SysState),
      s.enabled = false →
      retrieveMemories E now allMemories query shortTermContext nResults s = tx "" ∧
      storeMemory E cleanText analyzeEmotion conversation currentEmotion s
        = (currentEmotion, s) ∧
      cleanupOldMemories E qf strength s = s := by
  intro E now mems q stc n ct ae conv emo qf strength s h
  refine ⟨?_, ?_, ?_⟩
  · unfold retrieveMemories
    simp [h, tx]
  · unfold storeMemory
    simp [h]
  · unfold cleanupOldMemories
    simp [h]

/-- C9 witness: the three no-ops on a concrete disabled store holding
records. -/
theorem C9_witness :
    retrieveMemories specEnv 100 [demoPrefNew] (tx "苹果") (tx "你好") 3
      { demoState with enabled := false } = tx "" ∧
    storeMemory specEnv specCleanText (fun _ => (tx "neutral", 0))
      (tx "用户: 我喜欢吃苹果") (tx "happy") { demoState with enabled := false }
        = (tx "happy", { demoState with enabled := false }) ∧
    cleanupOldMemories specEnv demoSweepQuery (fun _ => 0)
      { demoState with enabled := false } = { demoState with enabled := false } :=
  C9_disabled_store_noops specEnv 100 [demoPrefNew] (tx "苹果") (tx "你好") 3
    specCleanText (fun _ => (tx "neutral", 0)) (tx "用户: 我喜欢吃苹果") (tx "happy")
    demoSweepQuery (fun _ => 0) { demoState with enabled := false } (by decide)

/-- Helper: the range of `calculate_importance` under non-negative entity
weights. -/
theorem calculateImportance_range (text : Text) (entities : List (Text × ℚ))
    (emotionType : Text) (emotionIntensity : ℕ)
    (hw : ∀ p ∈ entities, 0 ≤ p.2) :
    (3:ℚ)/10 ≤ calculateImportance text entities emotionType emotionIntensity ∧
    calculateImportance text entities emotionType emotionIntensity ≤ 1 := by
  have hS : 0 ≤ (entities.map (fun p => p.2)).sum := by
    apply List.sum_nonneg
    intro x hx
    obtain ⟨p, hp, rfl⟩ := List.mem_map.mp hx
    exact hw p hp
  have hL : (0:ℚ) ≤ (entities.length : ℚ) := by positivity
  have ha : (0:ℚ) ≤ (entities.map (fun p => p.2)).sum / (entities.length:ℚ) * mkRat 1 10 :=
    mul_nonneg (div_nonneg hS hL) (by rw [Rat.mkRat_eq_div]; norm_num)
  have hmin : (0:ℚ) ≤
      min ((entities.map (fun p => p.2)).sum / (entities.length:ℚ) * mkRat 1 10)
        (mkRat 2 10) :=
    le_min ha (by rw [Rat.mkRat_eq_div]; norm_num)
  have hint : (0:ℚ) ≤ (emotionIntensity:ℚ) * mkRat 8 100 :=
    mul_nonneg (by positivity) (by rw [Rat.mkRat_eq_div]; norm_num)
  have hc3 : (mkRat 3 10 : ℚ) = 3/10 := by rw [Rat.mkRat_eq_div]; norm_num
  have hc2 : (mkRat 2 10 : ℚ) = 2/10 := by rw [Rat.mkRat_eq_div]; norm_num
  have hc1 : (mkRat 1 10 : ℚ) = 1/10 := by rw [Rat.mkRat_eq_div]; norm_num
  simp only [calculateImportance]
  split_ifs <;>
    exact ⟨le_min (by linarith) (by norm_num), min_le_right _ _⟩

/-- C10: `calculate_importance` always lands in `[0.3, 1.0]` for
non-negative entity weights and intensities (the base 0.3 is a floor, the
clamp a ceiling), and consequently every store task the ingest path ever
enqueues — hence every record ever committed — carries an importance in
`[0.3, 1.0]`. -/
theorem C10_importance_bounds :
    (∀ (text : Text) (entities : List (Text × ℚ)) (emotionType : Text)
       (emotionIntensity : ℕ), (∀ p ∈ entities, 0 ≤ p.2) →
       (3:ℚ)/10 ≤ calculateImportance text entities emotionType emotionIntensity ∧
       calculateImportance text entities emotionType emotionIntensity ≤ 1) ∧
    (∀ (E : Env), (∀ (t : Text), ∀ p ∈ E.extractEntities t, 0 ≤ p.2) →
       ∀ (cleanText : Text → Text) (analyzeEmotion : Text → Text × ℕ)
         (conversation currentEmotion : Text) (s : SysState),
         ∀ task ∈ ((storeMemory E cleanText analyzeEmotion conversation
             currentEmotion s).2).storeQueue,
           task ∈ s.storeQueue ∨
             ((3:ℚ)/10 ≤ task.importance ∧ task.importance ≤ 1)) := by
  constructor
  · exact calculateImportance_range
  · intro E hE ct ae conv emo s task htask
    unfold storeMemory at htask
    split_ifs at htask
    · exact Or.inl htask
    · exact Or.inl htask
    · exact Or.inl htask
    · rcases List.mem_append.mp htask with h | h
      · exact Or.inl h
      · rcases List.mem_singleton.mp h with rfl
        exact Or.inr (calculateImportance_range _ _ _ _ (hE (ct conv)))

/-- C10 witness: the bounds at a concrete preference utterance with a
concrete non-negative entity weight. -/
theorem C10_witness :
    (3:ℚ)/10 ≤ calculateImportance (tx "我喜欢吃苹果") [(tx "苹果", mkRat 8 10)]
        (tx "neutral") 0 ∧
      calculateImportance (tx "我喜欢吃苹果") [(tx "苹果", mkRat 8 10)]
        (tx "neutral") 0 ≤ 1 :=
  C10_importance_bounds.1 (tx "我喜欢吃苹果") [(tx "苹果", mkRat 8 10)]
    (tx "neutral") 0 (by decide)

/-- Helper: membership in the decay-eviction pass, for a tier with
duplicate-free record ids. -/
theorem evictPass_mem (strength : Meta → ℚ) (l : List Record)
    (hl : (l.map Record.id).Nodup) (r : Record) :
    r ∈ evictPass strength l ↔
      r ∈ l ∧ ¬(strength r.meta < mkRat 1 10 ∧ r.meta.importance < mkRat 1 2) := by
  simp only [evictPass, List.mem_filter, Bool.not_eq_true']
  constructor
  · rintro ⟨hrl, hnc⟩
    refine ⟨hrl, fun hcond => ?_⟩
    have : r.id ∈ (l.filter (fun r2 =>
        strength r2.meta < mkRat 1 10 ∧ r2.meta.importance < mkRat 1 2)).map (·.id) :=
      List.mem_map_of_mem _ (List.mem_filter.mpr ⟨hrl, by simpa using hcond⟩)
    simp only [List.contains, List.elem_eq_mem, decide_eq_false_iff_not] at hnc
    exact hnc this
  · rintro ⟨hrl, hnc⟩
    refine ⟨hrl, ?_⟩
    simp only [List.contains, List.elem_eq_mem, decide_eq_false_iff_not]
    intro hid
    obtain ⟨r2, hr2, hid2⟩ := List.mem_map.mp hid
    obtain ⟨hr2l, hr2c⟩ := List.mem_filter.mp hr2
    have : r2 = r := List.inj_on_of_nodup_map hl hr2l hrl hid2
    subst this
    exact hnc (by simpa using hr2c)

/-- C5: the decay-eviction pass of cleanup evicts a record from the
working and long-term tiers if and only if its computed memory strength
is below 0.1 AND its importance is below 0.5 (the emotional tier is left
alone), and in particular a record with importance ≥ 0.5 is never evicted
no matter how small its memory strength is — the statement quantifies
over every strength function, covering arbitrarily stale `last_access`
and zero `access_count`.  Stated for tiers whose record ids are
duplicate-free, the id-uniqueness invariant of spec §3. -/
theorem C5_cleanup_eviction_floor :
    ∀ (strength : Meta → ℚ) (s : SysState) (r : Record),
      (s.working.map Record.id).Nodup → (s.longTerm.map Record.id).Nodup →
      ((r ∈ (cleanupEvict strength s).working ↔
          r ∈ s.working ∧
            ¬(strength r.meta < mkRat 1 10 ∧ r.meta.importance < mkRat 1 2)) ∧
       (r ∈ (cleanupEvict strength s).longTerm ↔
          r ∈ s.longTerm ∧
            ¬(strength r.meta < mkRat 1 10 ∧ r.meta.importance < mkRat 1 2)) ∧
       (cleanupEvict strength s).emotional = s.emotional ∧
       (mkRat 1 2 ≤ r.meta.importance →
         (r ∈ s.working → r ∈ (cleanupEvict strength s).working) ∧
         (r ∈ s.longTerm → r ∈ (cleanupEvict strength s).longTerm))) := by
  intro strength s r hw hl
  have hprot : mkRat 1 2 ≤ r.meta.importance →
      ¬(strength r.meta < mkRat 1 10 ∧ r.meta.importance < mkRat 1 2) :=
    fun himp hcond => absurd hcond.2 (not_lt.mpr himp)
  refine ⟨evictPass_mem strength s.working hw r,
          evictPass_mem strength s.longTerm hl r, rfl, fun himp => ⟨?_, ?_⟩⟩
  · exact fun hr => (evictPass_mem strength s.working hw r).mpr ⟨hr, hprot himp⟩
  · exact fun hr => (evictPass_mem strength s.longTerm hl r).mpr ⟨hr, hprot himp⟩

/-- C5 witness: with a strength function that is identically zero (far
below the 0.1 floor), the importance-0.9 never-accessed `demoRecord`
survives the eviction pass of a concrete store. -/
theorem C5_witness :
    (demoState.working.map Record.id).Nodup ∧
    (demoState.longTerm.map Record.id).Nodup ∧
    mkRat 1 2 ≤ demoRecord.meta.importance ∧
    demoRecord ∈ (cleanupEvict (fun _ => 0) demoState).longTerm :=
  ⟨by decide, by decide, by decide,
   ((C5_cleanup_eviction_floor (fun _ => 0) demoState demoRecord
       (by decide) (by decide)).2.2.2 (by decide)).2 (by decide)⟩

/-- C4: `judge_conflict` flags an old candidate as superseded if and only
if one of the four rules fires, checked in order, with the update-intent
and preference flags derived from the new text as the ingest path derives
them: (1) distance < 0.15 (duplicate 重复); (2) an update marker in the
new text, a shared entity, and distance < 0.4 (update 更新); (3) the new
text is a non-interrogative first-person preference, distance < 0.5, and
the pair is a preference contradiction (偏好矛盾); (4) both texts are
same-category non-interrogative preferences, with no distance condition
at all (同类偏好更新); otherwise no conflict is reported. -/
theorem C4_judge_conflict_rules :
    ∀ (E : Env) (newContent : Text) (newEntities : List Text) (oldDoc : Text)
      (oldEntities : List Text) (distance : ℚ) (reason : Text),
      judgeConflict E newContent newEntities oldDoc oldEntities distance
          (hasUpdateIntent E newContent) (detectPreferenceConflict E newContent)
        = some reason ↔
      ((distance < EXACT_DUPLICATE_THRESHOLD ∧ reason = tx "重复") ∨
       (¬distance < EXACT_DUPLICATE_THRESHOLD ∧
         (hasUpdateIntent E newContent = true ∧
          newEntities.filter (fun e => oldEntities.contains e) ≠ [] ∧
          distance < ENTITY_CONFLICT_THRESHOLD) ∧
         reason = tx "更新") ∨
       (¬distance < EXACT_DUPLICATE_THRESHOLD ∧
         ¬(hasUpdateIntent E newContent = true ∧
           newEntities.filter (fun e => oldEntities.contains e) ≠ [] ∧
           distance < ENTITY_CONFLICT_THRESHOLD) ∧
         (detectPreferenceConflict E newContent = true ∧
          distance < PREFERENCE_CONFLICT_THRESHOLD ∧
          isPreferenceContradiction E newContent oldDoc = true) ∧
         reason = tx "偏好矛盾") ∨
       (¬distance < EXACT_DUPLICATE_THRESHOLD ∧
         ¬(hasUpdateIntent E newContent = true ∧
           newEntities.filter (fun e => oldEntities.contains e) ≠ [] ∧
           distance < ENTITY_CONFLICT_THRESHOLD) ∧
         ¬(detectPreferenceConflict E newContent = true ∧
           distance < PREFERENCE_CONFLICT_THRESHOLD ∧
           isPreferenceContradiction E newContent oldDoc = true) ∧
         (detectPreferenceConflict E newContent = true ∧
          isSameCategoryPreference E newContent oldDoc = true) ∧
         reason = tx "同类偏好更新")) := by
  intro E newContent newEntities oldDoc oldEntities distance reason
  unfold judgeConflict
  split_ifs with h1 h2 h3 h4
  · simp only [Option.some.injEq]
    constructor
    · rintro rfl
      exact Or.inl ⟨h1, rfl⟩
    · rintro (⟨_, rfl⟩ | ⟨hn, _, _⟩ | ⟨hn, _, _, _⟩ | ⟨hn, _, _, _, _⟩)
      · rfl
      all_goals exact absurd h1 hn
  · simp only [Option.some.injEq]
    constructor
    · rintro rfl
      exact Or.inr (Or.inl ⟨h1, h2, rfl⟩)
    · rintro (⟨hd, _⟩ | ⟨_, _, rfl⟩ | ⟨_, hn2, _, _⟩ | ⟨_, hn2, _, _, _⟩)
      · exact absurd hd h1
      · rfl
      · exact absurd h2 hn2
      · exact absurd h2 hn2
  · simp only [Option.some.injEq]
    constructor
    · rintro rfl
      exact Or.inr (Or.inr (Or.inl ⟨h1, h2, h3, rfl⟩))
    · rintro (⟨hd, _⟩ | ⟨_, hc2, _⟩ | ⟨_, _, _, rfl⟩ | ⟨_, _, hn3, _, _⟩)
      · exact absurd hd h1
      · exact absurd hc2 h2
      · rfl
      · exact absurd h3 hn3
  · simp only [Option.some.injEq]
    constructor
    · rintro rfl
      exact Or.inr (Or.inr (Or.inr ⟨h1, h2, h3, h4, rfl⟩))
    · rintro (⟨hd, _⟩ | ⟨_, hc2, _⟩ | ⟨_, _, hc3, _⟩ | ⟨_, _, _, _, rfl⟩)
      · exact absurd hd h1
      · exact absurd hc2 h2
      · exact absurd hc3 h3
      · rfl
  · constructor
    · intro h
      exact absurd h (by simp)
    · rintro (⟨hd, _⟩ | ⟨_, hc2, _⟩ | ⟨_, _, hc3, _⟩ | ⟨_, _, _, hc4, _⟩)
      · exact absurd hd h1
      · exact absurd hc2 h2
      · exact absurd hc3 h3
      · exact absurd hc4 h4

/-- Helper: the ranking step assigns to every surviving hit exactly
`strength*0.45 + time_score*0.25 + (1-distance)*0.2` plus the code's
preference bonus. -/
theorem scoreMemories_formula :
    ∀ (E : Env) (reviewQuestion : Bool) (now : ℚ) (mems : List Mem),
      ∀ m ∈ scoreMemories E reviewQuestion now mems,
        m.finalScore =
          m.strength * mkRat 45 100 + timeScore now m.timestamp * mkRat 25 100 +
            (1 - m.distance) * mkRat 20 100 +
            preferenceBonus E mems reviewQuestion m := by
  intro E review now mems m' hm
  unfold scoreMemories at hm
  obtain ⟨m, _, rfl⟩ := List.mem_map.mp hm
  unfold preferenceBonus
  dsimp only
  rcases hcc : getPreferenceCategory E (extractUserInput m.content) with _ | c <;>
    by_cases hp : isPreferenceMemory E m.content = true <;>
    rcases review with _ | _ <;>
    simp only [hp, hcc, if_true, if_false, Bool.false_eq_true] <;>
    (try split_ifs) <;> ring

/-- Helper: the ranking step evaluated on the two concrete same-category
preference hits (non-review query, current time 1000): the newer hit gets
the 0.25 preference bonus plus the 0.2 most-recent-of-category bonus, the
older hit only the 0.25. -/
theorem demoScored_eq :
    scoreMemories specEnv false 1000 [demoPrefNew, demoPrefOld] =
      [demoScoredNew, demoScoredOld] := by
  have hp1 : isPreferenceMemory specEnv (tx "用户: 我喜欢吃苹果") = true := by decide
  have hp2 : isPreferenceMemory specEnv (tx "用户: 我喜欢吃香蕉") = true := by decide
  have hc1 : getPreferenceCategory specEnv (extractUserInput (tx "用户: 我喜欢吃苹果"))
      = some (tx "食物") := by decide
  have hc2 : getPreferenceCategory specEnv (extractUserInput (tx "用户: 我喜欢吃香蕉"))
      = some (tx "食物") := by decide
  have hcat : categoryLatestTs specEnv [demoPrefNew, demoPrefOld] (tx "食物") = 1000 := by
    unfold categoryLatestTs demoPrefNew demoPrefOld
    simp only [List.foldl_cons, List.foldl_nil]
    rw [if_pos ⟨hp1, hc1⟩, if_pos ⟨hp2, hc2⟩]
    norm_num
  unfold scoreMemories
  unfold demoPrefNew demoPrefOld at hcat ⊢
  unfold demoScoredNew demoScoredOld
  simp only [List.map_cons, List.map_nil, hp1, hp2, hc1, hc2, hcat, if_true,
    if_false, Bool.false_eq_true]
  norm_num [timeScore, Rat.mkRat_eq_div, Mem.mk.injEq]

/-- C3 counterexample: the claim's bonus shape — a fixed amount for
preference records plus an additional fixed amount only for
review-question queries on the most-recent record of the category — fits
no choice of the two fixed amounts: on a non-review retrieval of two
same-category preference hits the code still pays the extra 0.2 to the
most-recent one, so the two hits would need two different "fixed"
preference amounts. -/
theorem C3_counterexample :
    ¬ ∃ a b : ℚ, ∀ m ∈ scoreMemories specEnv false 1000 [demoPrefNew, demoPrefOld],
        m.finalScore =
          m.strength * mkRat 45 100 + timeScore 1000 m.timestamp * mkRat 25 100 +
            (1 - m.distance) * mkRat 20 100 +
            claimBonus specEnv [demoPrefNew, demoPrefOld] false a b m := by
  rintro ⟨a, b, h⟩
  have hm1 : demoScoredNew ∈
      scoreMemories specEnv false 1000 [demoPrefNew, demoPrefOld] := by
    rw [demoScored_eq]
    exact List.mem_cons_self _ _
  have hm2 : demoScoredOld ∈
      scoreMemories specEnv false 1000 [demoPrefNew, demoPrefOld] := by
    rw [demoScored_eq]
    simp
  have hp1 : isPreferenceMemory specEnv (tx "用户: 我喜欢吃苹果") = true := by decide
  have hp2 : isPreferenceMemory specEnv (tx "用户: 我喜欢吃香蕉") = true := by decide
  have e1 := h _ hm1
  have e2 := h _ hm2
  have f1 := scoreMemories_formula specEnv false 1000 [demoPrefNew, demoPrefOld] _ hm1
  have f2 := scoreMemories_formula specEnv false 1000 [demoPrefNew, demoPrefOld] _ hm2
  have hc1 : getPreferenceCategory specEnv (extractUserInput (tx "用户: 我喜欢吃苹果"))
      = some (tx "食物") := by decide
  have hc2 : getPreferenceCategory specEnv (extractUserInput (tx "用户: 我喜欢吃香蕉"))
      = some (tx "食物") := by decide
  have hcat : categoryLatestTs specEnv [demoPrefNew, demoPrefOld] (tx "食物") = 1000 := by
    unfold categoryLatestTs demoPrefNew demoPrefOld
    simp only [List.foldl_cons, List.foldl_nil]
    rw [if_pos ⟨hp1, hc1⟩, if_pos ⟨hp2, hc2⟩]
    norm_num
  have g1 : claimBonus specEnv [demoPrefNew, demoPrefOld] false a b
      demoScoredNew = a := by
    unfold claimBonus demoScoredNew
    simp [hp1]
  have g2 : claimBonus specEnv [demoPrefNew, demoPrefOld] false a b
      demoScoredOld = a := by
    unfold claimBonus demoScoredOld
    simp [hp2]
  have q1 : preferenceBonus specEnv [demoPrefNew, demoPrefOld] false demoScoredNew
      = mkRat 45 100 := by
    unfold preferenceBonus demoScoredNew
    simp only [hp1, hc1, hcat, if_true, if_false, Bool.false_eq_true]
    norm_num [Rat.mkRat_eq_div]
  have q2 : preferenceBonus specEnv [demoPrefNew, demoPrefOld] false demoScoredOld
      = mkRat 25 100 := by
    unfold preferenceBonus demoScoredOld
    simp only [hp2, hc2, hcat, if_true, if_false, Bool.false_eq_true]
    norm_num [Rat.mkRat_eq_div]
  rw [e1, g1, q1] at f1
  rw [e2, g2, q2] at f2
  have ha1 : a = mkRat 45 100 := add_left_cancel f1
  have ha2 : a = mkRat 25 100 := add_left_cancel f2
  rw [ha1] at ha2
  norm_num [Rat.mkRat_eq_div] at ha2

/-- C3 (amended): for every record surviving filtering, deduplication
and the review filter, the ranking score equals
`strength*0.45 + recency_score*0.25 + (1-distance)*0.2 + preference_bonus`
with `recency_score = 1/(1 + hours_since_timestamp/24)`, where
`preference_bonus` is 0.25 for preference-classified records, plus 0.15
for every scored record whenever the query was classified as a review
question, plus 0.2 for every preference record that is the most-recent
record of its preference category — the last bonus applying regardless of
whether the query is a review question. -/
theorem C3_ranking_score_amended :
    ∀ (E : Env) (reviewQuestion : Bool) (now : ℚ) (mems : List Mem),
      ∀ m ∈ scoreMemories E reviewQuestion now mems,
        m.finalScore =
          m.strength * mkRat 45 100 + timeScore now m.timestamp * mkRat 25 100 +
            (1 - m.distance) * mkRat 20 100 +
            preferenceBonus E mems reviewQuestion m :=
  scoreMemories_formula

/-- C3 witness: the amended formula at the concrete scored hit
`demoScoredNew` of a concrete non-review retrieval. -/
theorem C3_witness :
    demoScoredNew ∈ scoreMemories specEnv false 1000 [demoPrefNew, demoPrefOld] ∧
    demoScoredNew.finalScore =
      demoScoredNew.strength * mkRat 45 100 +
        timeScore 1000 demoScoredNew.timestamp * mkRat 25 100 +
        (1 - demoScoredNew.distance) * mkRat 20 100 +
        preferenceBonus specEnv [demoPrefNew, demoPrefOld] false demoScoredNew :=
  ⟨by rw [demoScored_eq]; exact List.mem_cons_self _ _,
   C3_ranking_score_amended specEnv false 1000 [demoPrefNew, demoPrefOld]
     demoScoredNew (by rw [demoScored_eq]; exact List.mem_cons_self _ _)⟩

/-- Helper: a fold whose step only ever appends entries satisfying `P`
to an accumulator of entries satisfying `P` yields entries satisfying
`P`. -/
theorem foldl_mem_preserve {α β : Type} (P : β → Prop) (f : List β → α → List β) :
    ∀ (l : List α) (acc : List β),
      (∀ acc2 a, a ∈ l → (∀ e ∈ acc2, P e) → ∀ e ∈ f acc2 a, P e) →
      (∀ e ∈ acc, P e) → ∀ e ∈ l.foldl f acc, P e := by
  intro l
  induction l with
  | nil =>
    intro acc _ h e he
    exact h e he
  | cons a tl ih =>
    intro acc hf h
    simp only [List.foldl_cons]
    exact ih (f acc a)
      (fun acc2 b hb => hf acc2 b (List.mem_cons_of_mem _ hb))
      (hf acc a (List.mem_cons_self _ _) h)

/-- Helper: an entry of the dict after an assignment is the assigned pair
or an entry of the dict before. -/
theorem upsertEntry_mem (k : ℕ) (v : Tier × Text × Text) :
    ∀ (l : List SweepEntry), ∀ e ∈ upsertEntry k v l, e = (k, v) ∨ e ∈ l := by
  intro l
  induction l with
  | nil =>
    intro e he
    simp only [upsertEntry, List.mem_singleton] at he
    exact Or.inl he
  | cons x xs ih =>
    intro e he
    unfold upsertEntry at he
    split_ifs at he with hx
    · rcases List.mem_cons.mp he with he | he
      · exact Or.inl he
      · exact Or.inr (List.mem_cons_of_mem _ he)
    · rcases List.mem_cons.mp he with he | he
      · exact Or.inr (he ▸ List.mem_cons_self _ _)
      · rcases ih e he with h | h
        · exact Or.inl h
        · exact Or.inr (List.mem_cons_of_mem _ h)

/-- Helper: processing one index neighbour inside the sweep only flags
entries that satisfy `SweepEntryOK`. -/
theorem sweepNeighborStep_ok {E : Env} {colls : List (Tier × List Record)}
    {query : Tier → Text → List (Record × ℚ)} {layer otherLayer : Tier}
    {doc : Record} (hdoc : ∃ c ∈ colls, doc ∈ c.2)
    (hoc : ∃ oc ∈ colls, oc.1 = otherLayer) :
    ∀ (acc : List SweepEntry) (p : Record × ℚ),
      p ∈ query otherLayer doc.document →
      (∀ e ∈ acc, SweepEntryOK E colls query e) →
      ∀ e ∈ sweepNeighborStep E layer otherLayer doc acc p,
        SweepEntryOK E colls query e := by
  intro acc p hp hacc e he
  obtain ⟨c, hc, hdocmem⟩ := hdoc
  obtain ⟨oc, hocmem, hoc1⟩ := hoc
  unfold sweepNeighborStep at he
  split_ifs at he with h1 h2
  · exact hacc e he
  · exact hacc e he
  · by_cases hts : p.1.meta.timestamp ≤ doc.meta.timestamp
    · simp only [hts, if_true] at he
      split at he
      next reason hj =>
        rcases upsertEntry_mem _ _ acc e he with rfl | hmem
        · refine ⟨c, hc, doc, hdocmem, oc, hocmem, p, hoc1 ▸ hp,
            le_of_not_lt h2, ?_⟩
          simp only [hts, if_true]
          exact ⟨trivial, trivial, trivial, hj⟩
        · exact hacc e hmem
      next hj => exact hacc e he
    · simp only [hts, if_false] at he
      split at he
      next reason hj =>
        rcases upsertEntry_mem _ _ acc e he with rfl | hmem
        · refine ⟨c, hc, doc, hdocmem, oc, hocmem, p, hoc1 ▸ hp,
            le_of_not_lt h2, ?_⟩
          simp only [hts, if_false]
          exact ⟨le_of_not_le hts, trivial, trivial, hj⟩
        · exact hacc e hmem
      next hj => exact hacc e he

/-- Helper: processing one stored document inside the sweep only flags
entries that satisfy `SweepEntryOK`. -/
theorem sweepDocStep_ok {E : Env} {colls : List (Tier × List Record)}
    {query : Tier → Text → List (Record × ℚ)} {layer : Tier} {doc : Record}
    (hdoc : ∃ c ∈ colls, doc ∈ c.2) :
    ∀ (acc : List SweepEntry), (∀ e ∈ acc, SweepEntryOK E colls query e) →
      ∀ e ∈ sweepDocStep E colls query layer acc doc,
        SweepEntryOK E colls query e := by
  intro acc hacc e he
  unfold sweepDocStep at he
  split_ifs at he with h1
  · exact hacc e he
  · refine foldl_mem_preserve _ _ colls acc ?_ hacc e he
    intro acc2 oc hoc hacc2 e2 he2
    exact foldl_mem_preserve _ _ (query oc.1 doc.document) acc2
      (fun acc3 p hp hacc3 =>
        sweepNeighborStep_ok hdoc ⟨oc, hoc, rfl⟩ acc3 p hp hacc3)
      hacc2 e2 he2

/-- C2: the full sweep `resolve_all_semantic_conflicts` judges pairs of
stored records with the very `judge_conflict` rule of the ingest
pipeline, always placing the record with the later (or tied) timestamp on
the "new" side, and every entry of its deletion set is the "old" side of
such a judged pair — a record whose timestamp does not exceed the kept
partner's — located within the 0.7 neighbour-similarity threshold. -/
theorem C2_sweep_judges_later_as_new :
    ∀ (E : Env) (colls : List (Tier × List Record))
      (query : Tier → Text → List (Record × ℚ)),
      ∀ e ∈ sweepToDelete E colls query, SweepEntryOK E colls query e := by
  intro E colls query e he
  unfold sweepToDelete at he
  refine foldl_mem_preserve _ _ colls [] ?_ (by simp) e he
  intro acc c hc hacc e2 he2
  refine foldl_mem_preserve _ _ c.2 acc ?_ hacc e2 he2
  intro acc2 doc hdocmem hacc2 e3 he3
  exact sweepDocStep_ok ⟨c, hc, hdocmem⟩ acc2 hacc2 e3 he3

/-- C2 witness: on a concrete long-term tier holding 我喜欢吃苹果
(timestamp 1) and the contradicting 我不喜欢吃苹果 (timestamp 2) at
neighbour distance 0.3, the sweep flags exactly the older record, and the
flagged entry satisfies the judged-pair property. -/
theorem C2_witness :
    (21, Tier.longTerm, tx "用户: 我喜欢吃苹果", tx "偏好矛盾") ∈
      sweepToDelete specEnv demoSweepColls demoSweepQuery ∧
    SweepEntryOK specEnv demoSweepColls demoSweepQuery
      (21, Tier.longTerm, tx "用户: 我喜欢吃苹果", tx "偏好矛盾") :=
  ⟨by decide,
   C2_sweep_judges_later_as_new specEnv demoSweepColls demoSweepQuery _ (by decide)⟩

/-- Helper: `sameExceptAccess` is reflexive. -/
theorem sameExceptAccess_refl (r : Record) : sameExceptAccess r r :=
  ⟨rfl, rfl, rfl, rfl, rfl, rfl, rfl, rfl, rfl, rfl, rfl, rfl⟩

/-- Helper: `sameExceptAccess` is transitive. -/
theorem sameExceptAccess_trans {a b c : Record}
    (h1 : sameExceptAccess a b) (h2 : sameExceptAccess b c) :
    sameExceptAccess a c := by
  unfold sameExceptAccess at h1 h2 ⊢
  obtain ⟨e1, e2, e3, e4, e5, e6, e7, e8, e9, e10, e11, e12⟩ := h1
  obtain ⟨f1, f2, f3, f4, f5, f6, f7, f8, f9, f10, f11, f12⟩ := h2
  exact ⟨f1.trans e1, f2.trans e2, f3.trans e3, f4.trans e4, f5.trans e5,
    f6.trans e6, f7.trans e7, f8.trans e8, f9.trans e9, f10.trans e10,
    f11.trans e11, f12.trans e12⟩

/-- Helper: reading the tier just written. -/
theorem tierGet_tierSet_same (s : SysState) (t : Tier) (l : List Record) :
    tierGet (tierSet s t l) t = l := by
  cases t <;> rfl

/-- Helper: reading another tier after a write. -/
theorem tierGet_tierSet_other (s : SysState) (t u : Tier) (l : List Record)
    (h : t ≠ u) : tierGet (tierSet s u l) t = tierGet s t := by
  cases t <;> cases u <;> first | rfl | exact absurd rfl h

/-- Helper: one access-bookkeeping update only rewrites the matching
record's access fields; every post-state record of any tier descends
from a pre-state record of the same tier. -/
theorem applyUpdate_mem (now : ℚ) (s : SysState) (u : ℕ × Tier) (t : Tier) :
    ∀ r2 ∈ tierGet (applyUpdate now s u) t,
      ∃ r ∈ tierGet s t, sameExceptAccess r r2 ∧
        (r2 = r ∨ (r.id = u.1 ∧ t = u.2 ∧
          r2.meta.accessCount = r.meta.accessCount + 1 ∧
          r2.meta.lastAccess = now)) := by
  intro r2 hr2
  by_cases ht : t = u.2
  · subst ht
    unfold applyUpdate at hr2
    rw [tierGet_tierSet_same] at hr2
    obtain ⟨r, hr, rfl⟩ := List.mem_map.mp hr2
    by_cases hid : r.id = u.1
    · refine ⟨r, hr, ?_, Or.inr ⟨hid, rfl, ?_, ?_⟩⟩ <;>
        simp [hid, sameExceptAccess]
    · refine ⟨r, hr, ?_, Or.inl ?_⟩ <;> simp [hid, sameExceptAccess]
  · unfold applyUpdate at hr2
    rw [tierGet_tierSet_other _ _ _ _ ht] at hr2
    exact ⟨r2, hr2, sameExceptAccess_refl r2, Or.inl rfl⟩

/-- Helper: the batched flush only rewrites access fields: every
post-state record of any tier has a pre-state ancestor in the same tier
agreeing on every non-access field. -/
theorem flushUpdates_mem (now : ℚ) :
    ∀ (updates : List (ℕ × Tier)) (s : SysState) (t : Tier),
      ∀ r2 ∈ tierGet (flushUpdates now updates s) t,
        ∃ r ∈ tierGet s t, sameExceptAccess r r2 := by
  intro updates
  induction updates with
  | nil =>
    intro s t r2 hr2
    exact ⟨r2, hr2, sameExceptAccess_refl r2⟩
  | cons u us ih =>
    intro s t r2 hr2
    have hfold : flushUpdates now (u :: us) s = flushUpdates now us (applyUpdate now s u) := rfl
    rw [hfold] at hr2
    obtain ⟨r1, hr1, h12⟩ := ih (applyUpdate now s u) t r2 hr2
    obtain ⟨r, hr, h01, _⟩ := applyUpdate_mem now s u t r1 hr1
    exact ⟨r, hr, sameExceptAccess_trans h01 h12⟩

/-- Helper: conflict deletions only remove whole records. -/
theorem applyDeletes_subset :
    ∀ (dels : List (ℕ × Tier)) (s : SysState) (t : Tier),
      ∀ r2 ∈ tierGet (applyDeletes dels s) t, r2 ∈ tierGet s t := by
  intro dels
  induction dels with
  | nil =>
    intro s t r2 hr2
    exact hr2
  | cons d ds ih =>
    intro s t r2 hr2
    have hfold : applyDeletes (d :: ds) s =
        applyDeletes ds (tierSet s d.2 ((tierGet s d.2).filter (fun r => r.id ≠ d.1))) := rfl
    rw [hfold] at hr2
    have h1 := ih _ t r2 hr2
    by_cases ht : t = d.2
    · subst ht
      rw [tierGet_tierSet_same] at h1
      exact (List.mem_filter.mp h1).1
    · rwa [tierGet_tierSet_other _ _ _ _ ht] at h1

/-- C8: after creation, `access_count` and `last_access` are the only
fields ever mutated.  The access-bookkeeping flush increments
`access_count` by one and sets `last_access` to the flush time for the
targeted record, preserving every other field; across a whole batch every
surviving record keeps its text, timestamp, importance, emotion fields,
entities, preference fields and tier; and every other state-changing
operation (the commit with its conflict deletions, the decay eviction,
the sweep deletions, the ingest enqueue) either adds the single new
record, deletes whole records, or leaves the tiers untouched — it never
rewrites a field of a surviving record. -/
theorem C8_only_access_fields_mutated :
    (∀ (now : ℚ) (s : SysState) (u : ℕ × Tier) (t : Tier),
       ∀ r2 ∈ tierGet (applyUpdate now s u) t,
         ∃ r ∈ tierGet s t, sameExceptAccess r r2 ∧
           (r2 = r ∨ (r.id = u.1 ∧ t = u.2 ∧
             r2.meta.accessCount = r.meta.accessCount + 1 ∧
             r2.meta.lastAccess = now))) ∧
    (∀ (now : ℚ) (updates : List (ℕ × Tier)) (s : SysState) (t : Tier),
       ∀ r2 ∈ tierGet (flushUpdates now updates s) t,
         ∃ r ∈ tierGet s t, sameExceptAccess r r2) ∧
    (∀ (E : Env) (query : Tier → Text → List (Record × ℚ)) (now : ℚ)
       (memoryId : ℕ) (task : StoreTask) (s : SysState) (t : Tier),
       ∀ r2 ∈ tierGet (doStoreMemory E query now memoryId task s) t,
         r2 ∈ tierGet s t ∨ r2.id = memoryId) ∧
    (∀ (strength : Meta → ℚ) (s : SysState) (t : Tier),
       ∀ r2 ∈ tierGet (cleanupEvict strength s) t, r2 ∈ tierGet s t) ∧
    (∀ (dels : List (ℕ × Tier)) (s : SysState) (t : Tier),
       ∀ r2 ∈ tierGet (applyDeletes dels s) t, r2 ∈ tierGet s t) ∧
    (∀ (E : Env) (cleanText : Text → Text) (analyzeEmotion : Text → Text × ℕ)
       (conversation currentEmotion : Text) (s : SysState) (t : Tier),
       tierGet (storeMemory E cleanText analyzeEmotion conversation
         currentEmotion s).2 t = tierGet s t) := by
  refine ⟨applyUpdate_mem, flushUpdates_mem, ?_, ?_, applyDeletes_subset, ?_⟩
  · intro E query now memoryId task s t r2 hr2
    unfold doStoreMemory at hr2
    have hsub := applyDeletes_subset
      (smartConflictToDelete E query task.cleanConv task.entities) s
    split_ifs at hr2 <;> cases t <;>
      first
        | (rcases List.mem_cons.mp hr2 with rfl | hmem
           · exact Or.inr rfl
           · exact Or.inl (hsub _ _ hmem))
        | exact Or.inl (hsub _ _ hr2)
  · intro strength s t r2 hr2
    cases t <;>
      first
        | exact hr2
        | exact (List.mem_filter.mp hr2).1
  · intro E ct ae conv emo s t
    unfold storeMemory
    split_ifs <;> cases t <;> rfl

/-- C8 witness: a concrete access-bookkeeping update on a concrete store
bumps only the access fields of the targeted record: the bumped record is
in the post-state tier and descends from a pre-state record with every
other field equal. -/
theorem C8_witness :
    demoRecordBumped ∈
      tierGet (applyUpdate 200 demoState (11, Tier.longTerm)) Tier.longTerm ∧
    ∃ r ∈ tierGet demoState Tier.longTerm, sameExceptAccess r demoRecordBumped ∧
      (demoRecordBumped = r ∨ (r.id = 11 ∧ Tier.longTerm = Tier.longTerm ∧
        demoRecordBumped.meta.accessCount = r.meta.accessCount + 1 ∧
        demoRecordBumped.meta.lastAccess = 200)) :=
  ⟨by decide,
   C8_only_access_fields_mutated.1 200 demoState (11, Tier.longTerm) Tier.longTerm
     demoRecordBumped (by decide)⟩
